import Mathlib

/-!
Shallow embedding of the email-delivery subsystem of the palangtod backend:
the task queue (src/services/taskQueueService.js), the attempt logger
(EmailLogger, src/unnamed/part_002), the fallback transport
(src/services/emailFallbackService.js), the no-op simulated transport
(NoopEmailService, src/unnamed/part_000), and the delivery orchestration in
EmailService.sendCustomerOrderConfirmation (src/services/emailService.js).

JavaScript values are modelled as follows: machine-generated identifiers and
timestamps (Date.now, Math.random) are threaded in as explicit parameters;
the truthiness test `x || d` on a possibly-absent number or string is made
explicit (0, empty string and absence are falsy); async interleaving is
modelled by a small-step transition relation on the queue state.
-/

namespace Palangtod

/-! ## Task queue: argument parsing (TaskQueue.addTask / createTaskOptions)

`addTask(taskFn, taskName, ...args)` inspects the LAST rest argument: when it
is an object whose `_isTaskOptions` property is truthy it is popped off and
used as the options object; otherwise the default object
`{maxRetries: 3, retryDelay: 5000}` is used.  The task then stores
`options.maxRetries || 3` and `options.retryDelay || 5000`.
-/

/-- A rest argument of `addTask`: either a non-object value (opaque), or an
object carrying the truthiness of its `_isTaskOptions` property and its
(possibly absent) numeric `maxRetries` / `retryDelay` properties. -/
inductive JSArg where
  | prim : String → JSArg
  | obj : Bool → Option Nat → Option Nat → JSArg
  deriving Repr, DecidableEq

/-- JavaScript `x || d` for a possibly-absent number: absent and 0 are falsy. -/
def jsNumOr (x : Option Nat) (d : Nat) : Nat :=
  match x with
  | some n => if n = 0 then d else n
  | none => d

/-- The source's test `typeof args[args.length-1] === 'object' &&
args[args.length-1]._isTaskOptions` (an object argument is a `JSArg.obj`;
the conjunct `args.length > 0` is the existence of a last element). -/
def isTaskOptionsArg : JSArg → Bool
  | JSArg.obj flag _ _ => flag
  | JSArg.prim _ => false

/-- Whether `addTask`'s rest arguments end in a task-options object. -/
def hasTrailingOptions (args : List JSArg) : Bool :=
  match args.getLast? with
  | some a => isTaskOptionsArg a
  | none => false

/-- The argument/option processing of `TaskQueue.addTask`: returns the
positional arguments passed on to the work function, the task's
`maxRetries`, and the task's `retryDelay` (source lines 22-40). -/
def addTaskParse (args : List JSArg) : List JSArg × Nat × Nat :=
  match args.getLast? with
  | some (JSArg.obj true mr rd) => (args.dropLast, jsNumOr mr 3, jsNumOr rd 5000)
  | _ => (args, 3, 5000)

/-- Source `TaskQueue.createTaskOptions(maxRetries = 3, retryDelay = 5000)`. -/
def createTaskOptions (maxRetries : Nat := 3) (retryDelay : Nat := 5000) : JSArg :=
  JSArg.obj true (some maxRetries) (some retryDelay)

/-! ## Task queue: per-task retry loop (TaskQueue.processQueue)

One task's life through `processQueue`, projected out of the queue
interleaving: the body is invoked; on success the task's promise is resolved
with the result; on a thrown error, if `task.retries < task.maxRetries` the
retry counter is incremented and the task re-enters the queue, otherwise the
promise is resolved with `{error, retries, failed: true}` (lines 80-107).
The behaviour of the body is an oracle giving the outcome of each invocation.
-/

/-- The value a task's promise is resolved with: the body's result, or the
terminal `{error: ..., retries: ..., failed: true}` object. -/
inductive TaskResult (α : Type) where
  | ok : α → TaskResult α
  | failed : String → Nat → TaskResult α
  deriving Repr, DecidableEq

/-- Run one task from retry counter `retries` with invocation counter `i`,
following the catch branch of `processQueue`.  `behavior k` is the outcome of
the task body's `k`-th invocation.  Returns the resolved value and the
invocation counter after settling. -/
def processTaskFrom (behavior : Nat → Except String α) (maxRetries retries i : Nat) :
    TaskResult α × Nat :=
  match behavior i with
  | Except.ok v => (TaskResult.ok v, i + 1)
  | Except.error e =>
    if retries < maxRetries then
      processTaskFrom behavior maxRetries (retries + 1) (i + 1)
    else
      (TaskResult.failed e retries, i + 1)
termination_by maxRetries - retries
decreasing_by omega

/-- Run one freshly added task (`retries` starts at 0 in `addTask`). -/
def processTask (behavior : Nat → Except String α) (maxRetries : Nat) :
    TaskResult α × Nat :=
  processTaskFrom behavior maxRetries 0 0

/-! ## Task queue: concurrency state machine (TaskQueue.processQueue)

The interleaved execution of the singleton `TaskQueue`.  JavaScript is
single-threaded, so the synchronous prefix of `processQueue` — the guard
`queue.length === 0 || activeTasks >= maxConcurrent`, `processing = true`,
`activeTasks++`, `queue.shift()` — is one atomic step; the task body then
runs "concurrently" (it is awaited) until one of the completion steps fires,
whose `finally` block (`activeTasks--` and the processing-flag update) is
again atomic.  A retry's `setTimeout` callback is the timer step.  Further
`processQueue()` calls made by `addTask` and the `finally` block are simply
additional (guarded) start steps.
-/

/-- A queued task as built by `addTask`: its current retry counter and its
`maxRetries` bound (the fields of the task object that `processQueue`'s retry
logic reads and writes). -/
structure QTask where
  retries : Nat
  maxRetries : Nat
  deriving Repr, DecidableEq

/-- The mutable state of the `TaskQueue` singleton, plus the set of task
bodies currently being awaited (`running`) and the retries parked in a
`setTimeout` (`delayed`). -/
structure QState where
  queue : List QTask
  running : List QTask
  delayed : List QTask
  activeTasks : Nat
  processing : Bool
  maxConcurrent : Nat
  deriving Repr, DecidableEq

/-- The state of the singleton `new TaskQueue()` (constructor, lines 5-10). -/
def initQState : QState :=
  { queue := [], running := [], delayed := [], activeTasks := 0,
    processing := false, maxConcurrent := 3 }

/-- The `finally` block's processing-flag update: `processing` is cleared
only when the queue is empty and no task is active (lines 108-116). -/
def finallyFlag (queue : List QTask) (active : Nat) (processing : Bool) : Bool :=
  if queue.isEmpty && active == 0 then false else processing

/-- One interleaving step of the task queue. -/
inductive QStep : QState → QState → Prop where
  | add (s : QState) (m : Nat) :
      QStep s { s with queue := s.queue ++ [{ retries := 0, maxRetries := m }] }
  | start (s : QState) (t : QTask) (rest : List QTask)
      (hq : s.queue = t :: rest) (hc : s.activeTasks < s.maxConcurrent) :
      QStep s { s with queue := rest, running := t :: s.running,
                       activeTasks := s.activeTasks + 1, processing := true }
  | finishOk (s : QState) (t : QTask) (l₁ l₂ : List QTask)
      (hr : s.running = l₁ ++ t :: l₂) :
      QStep s { s with running := l₁ ++ l₂,
                       activeTasks := s.activeTasks - 1,
                       processing := finallyFlag s.queue (s.activeTasks - 1) s.processing }
  | finishRetry (s : QState) (t : QTask) (l₁ l₂ : List QTask)
      (hr : s.running = l₁ ++ t :: l₂) (hlt : t.retries < t.maxRetries) :
      QStep s { s with running := l₁ ++ l₂,
                       delayed := { t with retries := t.retries + 1 } :: s.delayed,
                       activeTasks := s.activeTasks - 1,
                       processing := finallyFlag s.queue (s.activeTasks - 1) s.processing }
  | finishFail (s : QState) (t : QTask) (l₁ l₂ : List QTask)
      (hr : s.running = l₁ ++ t :: l₂) (hge : ¬ t.retries < t.maxRetries) :
      QStep s { s with running := l₁ ++ l₂,
                       activeTasks := s.activeTasks - 1,
                       processing := finallyFlag s.queue (s.activeTasks - 1) s.processing }
  | timer (s : QState) (t : QTask) (l₁ l₂ : List QTask)
      (hd : s.delayed = l₁ ++ t :: l₂) :
      QStep s { s with delayed := l₁ ++ l₂, queue := s.queue ++ [t] }

/-- States reachable from the freshly constructed queue. -/
inductive QReachable : QState → Prop where
  | init : QReachable initQState
  | step {s s' : QState} : QReachable s → QStep s s' → QReachable s'

/-! ## Attempt logger (EmailLogger)

`logEmailAttempt(emailData)` builds a log entry from the passed data (with
machine-generated id and timestamp, threaded here as parameters), prepends it
to `memoryLogs` truncating at `maxMemoryLogs = 100`, and — when the logger is
ready — prepends it to the durable file's array truncating at 500 entries
(file read/parse/write modelled on the happy path; a write failure is caught
and only logged to the console, leaving the in-memory state as modelled).
-/

/-- The argument object passed to `emailLogger.logEmailAttempt` by the email
services: spread metadata plus per-call fields.  `messageId`/`error` are
absent on some call sites (`none`). -/
structure EmailData where
  type : String
  orderId : String
  retryCount : Nat
  toAddr : String  -- the source field `to` (a Lean keyword here)
  subject : String
  success : Bool
  messageId : Option String := none
  error : Option String := none
  usingFallback : Bool := false
  simulated : Bool := false
  deriving Repr, DecidableEq

/-- A stored log entry (the object literal built in `logEmailAttempt`,
lines 115-126 of the EmailLogger source).  Note it keeps only these fields:
`usingFallback`/`simulated` from the argument are dropped. -/
structure LogEntry where
  id : String
  timestamp : String
  type : String
  toAddr : String  -- the source field `to` (a Lean keyword here)
  subject : String
  orderId : String
  status : String
  messageId : Option String
  error : Option String
  retryCount : Nat
  deriving Repr, DecidableEq

/-- JavaScript `s || d` for a string: the empty string is falsy. -/
def jsStrOr (s d : String) : String :=
  if s = "" then d else s

/-- JavaScript `x || null` for a possibly-absent string: absent and the
empty string give `null`. -/
def jsStrOrNull (x : Option String) : Option String :=
  match x with
  | some s => if s = "" then none else some s
  | none => none

/-- The log-entry object built by `logEmailAttempt` (with the generated
`id` and `timestamp` passed in). -/
def mkLogEntry (id timestamp : String) (d : EmailData) : LogEntry :=
  { id := id, timestamp := timestamp,
    type := jsStrOr d.type "unknown",
    toAddr := d.toAddr, subject := d.subject, orderId := d.orderId,
    status := if d.success then "success" else "failed",
    messageId := jsStrOrNull d.messageId,
    error := jsStrOrNull d.error,
    retryCount := d.retryCount }

/-- The state of the `EmailLogger` singleton: the in-memory list, the durable
file's array, and the `initialized` flag set by `init()`. -/
structure LoggerState where
  memoryLogs : List LogEntry
  fileLogs : List LogEntry
  inited : Bool
  deriving Repr, DecidableEq

/-- The logger after construction and a successful `init()`. -/
def initLogger : LoggerState :=
  { memoryLogs := [], fileLogs := [], inited := true }

/-- Source `EmailLogger.logEmailAttempt` (lines 114-165): returns the new logger
state and the stored entry. -/
def logEmailAttempt (st : LoggerState) (id timestamp : String) (d : EmailData) :
    LoggerState × LogEntry :=
  let entry := mkLogEntry id timestamp d
  let mem0 := entry :: st.memoryLogs
  let mem1 := if mem0.length > 100 then mem0.take 100 else mem0
  let file1 :=
    if st.inited then
      let f0 := entry :: st.fileLogs
      if f0.length > 500 then f0.take 500 else f0
    else st.fileLogs
  ({ memoryLogs := mem1, fileLogs := file1, inited := st.inited }, entry)

/-- Run a whole sequence of `logEmailAttempt` calls; each input is the
generated id, the generated timestamp, and the email data. -/
def runLogger (st : LoggerState) (inputs : List (String × String × EmailData)) :
    LoggerState :=
  inputs.foldl (fun s p => (logEmailAttempt s p.1 p.2.1 p.2.2).1) st

/-- Source `EmailLogger.getRecentLogs(limit = 50)`. -/
def getRecentLogs (st : LoggerState) (limit : Nat := 50) : List LogEntry :=
  st.memoryLogs.take limit

/-- The object returned by `EmailLogger.getStats`.  The source formats
`successRate` as a percentage string via floating-point `toFixed(2)`; it is
modelled as the exact rational percentage (0 when there are no entries,
matching the `'0%'` branch). -/
structure Stats where
  total : Nat
  success : Nat
  failed : Nat
  successRate : ℚ
  lastAttempt : Option String
  deriving Repr, DecidableEq

/-- Source `EmailLogger.getStats` (lines 180-192): a read of `memoryLogs` only.
Modelled as returning the (unchanged) state together with the stats object,
so that freedom from mutation is part of the embedding's statement. -/
def getStats (st : LoggerState) : LoggerState × Stats :=
  let total := st.memoryLogs.length
  let success := (st.memoryLogs.filter (fun l => l.status = "success")).length
  (st,
   { total := total, success := success, failed := total - success,
     successRate := if total = 0 then 0 else (success * 100 : ℚ) / total,
     lastAttempt := st.memoryLogs.head?.map (·.timestamp) })

/-! ## Delivery tiers and orchestration

`EmailService.sendCustomerOrderConfirmation` queues a task body which tries
the primary transporter; on a thrown transport error it tries
`emailFallback.sendMail`; if that reports failure it throws
`'Both primary and fallback email delivery failed'`, caught by the inner
handler, which consults the no-op service's `active` flag before either
simulating delivery or logging a terminal failure.  The network outcome of
each transporter and the generated message ids are environment parameters.
-/

/-- The outcome of one `transporter.sendMail` network call: a message id, or
a thrown transport error. -/
inductive SendOutcome where
  | ok : String → SendOutcome
  | err : String → SendOutcome
  deriving Repr, DecidableEq

/-- The object a send entry point resolves with (`{success, messageId?,
error?, usingFallback?, simulated?}`). -/
structure SendResult where
  success : Bool
  messageId : Option String := none
  error : Option String := none
  usingFallback : Bool := false
  simulated : Bool := false
  deriving Repr, DecidableEq

/-- The `mailOptions` fields the logging and fallback paths read. -/
structure MailOptions where
  toAddr : String  -- the source field `to` (a Lean keyword here)
  subject : String
  deriving Repr, DecidableEq

/-- The metadata object built in the task body (`{type, orderId,
retryCount}`). -/
structure Metadata where
  type : String
  orderId : String
  retryCount : Nat
  deriving Repr, DecidableEq

/-- The fallback-usage counters of `EmailFallbackService`. -/
structure FallbackState where
  fallbackUsed : Nat
  fallbackSuccess : Nat
  deriving Repr, DecidableEq

/-- Source `EmailFallbackService.sendMail(mailOptions, metadata)` (lines 51-90):
increments `fallbackUsed`, attempts the network send (`outcome`), logs
exactly one attempt either way, and RETURNS (never throws) a result object.
The second component lists the `EmailData` arguments of the
`logEmailAttempt` calls made. -/
def fallbackSendMail (st : FallbackState) (outcome : SendOutcome)
    (mail : MailOptions) (meta : Metadata) :
    FallbackState × SendResult × List EmailData :=
  match outcome with
  | SendOutcome.ok mid =>
    ({ fallbackUsed := st.fallbackUsed + 1, fallbackSuccess := st.fallbackSuccess + 1 },
     { success := true, messageId := some mid, usingFallback := true },
     [{ type := meta.type, orderId := meta.orderId, retryCount := meta.retryCount,
        toAddr := mail.toAddr, subject := mail.subject, success := true,
        messageId := some mid, usingFallback := true }])
  | SendOutcome.err e =>
    ({ fallbackUsed := st.fallbackUsed + 1, fallbackSuccess := st.fallbackSuccess },
     { success := false, error := some e, usingFallback := true },
     [{ type := meta.type, orderId := meta.orderId, retryCount := meta.retryCount,
        toAddr := mail.toAddr, subject := mail.subject, success := false,
        error := some e, usingFallback := true }])

/-- The state of the `NoopEmailService` singleton: its `active` flag
(false at construction, set by `activate()`). -/
structure NoopState where
  active : Bool
  deriving Repr, DecidableEq

/-- Source `NoopEmailService.activate()` (part_000, lines 18-21). -/
def noopActivate (_st : NoopState) : NoopState :=
  { active := true }

/-- Source `NoopEmailService.sendMail(mailOptions, metadata)` (part_000, lines
29-51): generates a message id (passed in as `mid`), logs one successful
simulated attempt, and returns `{success: true, messageId, simulated: true}`.
The method does not read or write the `active` flag. -/
def noopSendMail (st : NoopState) (mail : MailOptions) (meta : Metadata)
    (mid : String) : NoopState × SendResult × List EmailData :=
  (st,
   { success := true, messageId := some mid, simulated := true },
   [{ type := meta.type, orderId := meta.orderId, retryCount := meta.retryCount,
      toAddr := mail.toAddr, subject := mail.subject, success := true,
      messageId := some mid, simulated := true }])

/-- The error message thrown when the fallback result reports failure
(emailService.js line 158) and caught as `fallbackError`. -/
def bothFailedMsg : String := "Both primary and fallback email delivery failed"

/-- The environment of one orchestration pass: the network outcomes of the
primary and fallback transporters, the no-op service's state, and the
message id the no-op service would generate. -/
structure OrchEnv where
  primary : SendOutcome
  fallback : SendOutcome
  noop : NoopState
  noopMid : String
  deriving Repr, DecidableEq

/-- Observable trace of one orchestration pass: the resolved result, the
`EmailData` of every `logEmailAttempt` call made (in order), and whether the
simulated tier's `sendMail` was invoked. -/
structure OrchTrace where
  result : SendResult
  logs : List EmailData
  noopAttempted : Bool
  deriving Repr, DecidableEq

/-- The task body queued by `EmailService.sendCustomerOrderConfirmation`
(emailService.js lines 105-189), for an order with identifier `orderId` and
customer email `email`: try the primary transporter (logging on success
only), then `emailFallback.sendMail`, then — only if `noopEmailService.active`
— the simulated tier; otherwise log the terminal failure and resolve with
`{success: false, error}`. -/
def sendCustomerOrderConfirmationBody (env : OrchEnv) (fst : FallbackState)
    (orderId email : String) : OrchTrace × FallbackState :=
  let mail : MailOptions :=
    { toAddr := email, subject := "Order Confirmation - " ++ orderId }
  let meta : Metadata :=
    { type := "customer_confirmation", orderId := orderId, retryCount := 0 }
  match env.primary with
  | SendOutcome.ok mid =>
    ({ result := { success := true, messageId := some mid },
       logs := [{ type := meta.type, orderId := meta.orderId,
                  retryCount := meta.retryCount, toAddr := mail.toAddr,
                  subject := mail.subject, success := true,
                  messageId := some mid }],
       noopAttempted := false }, fst)
  | SendOutcome.err _ =>
    -- the primary failure is only written to the console, not logged
    let (fst', fres, flogs) :=
      fallbackSendMail fst env.fallback mail { meta with retryCount := 1 }
    if fres.success then
      ({ result := fres, logs := flogs, noopAttempted := false }, fst')
    else if env.noop.active then
      let (_, nres, nlogs) :=
        noopSendMail env.noop mail { meta with retryCount := 2 } env.noopMid
      ({ result := nres, logs := flogs ++ nlogs, noopAttempted := true }, fst')
    else
      ({ result := { success := false, error := some bothFailedMsg },
         logs := flogs ++
           [{ type := meta.type, orderId := meta.orderId,
              retryCount := meta.retryCount, toAddr := mail.toAddr,
              subject := mail.subject, success := false,
              error := some bothFailedMsg }],
         noopAttempted := false }, fst')

/-! ## Helper lemmas -/

/-- Truncating the tail of an append before an outer truncation of at least
that size changes nothing. -/
theorem take_append_take_of_le {α : Type} (n m : Nat) (A B : List α) (h : n ≤ m) :
    (A ++ B.take m).take n = (A ++ B).take n := by
  induction A generalizing n with
  | nil => simp [List.take_take, Nat.min_eq_left h]
  | cons a A ih =>
    cases n with
    | zero => simp
    | succ k =>
      simp only [List.cons_append, List.take_succ_cons]
      rw [ih k (Nat.le_trans (Nat.le_succ k) h)]

/-- Core bounds of the per-task retry loop: starting from a retry counter
`r ≤ m`, the resolved value in the failure case carries retry counter exactly
`m`, and at most `m - r + 1` further invocations of the body occur. -/
theorem processTaskFrom_bounds {α : Type} (behavior : Nat → Except String α)
    (m : Nat) :
    ∀ k r i, m - r ≤ k → r ≤ m →
      (∀ e r', (processTaskFrom behavior m r i).1 = TaskResult.failed e r' → r' = m)
      ∧ (processTaskFrom behavior m r i).2 ≤ i + (m - r) + 1 := by
  intro k
  induction k with
  | zero =>
    intro r i hk hr
    rw [processTaskFrom]
    cases hb : behavior i with
    | ok v =>
      refine ⟨fun e r' h => by simp at h, ?_⟩
      simp only []
      omega
    | error e =>
      have hnlt : ¬ r < m := by omega
      simp only [hnlt, if_false]
      constructor
      · intro e' r' h
        simp only [TaskResult.failed.injEq] at h
        omega
      · omega
  | succ k ih =>
    intro r i hk hr
    rw [processTaskFrom]
    cases hb : behavior i with
    | ok v =>
      refine ⟨fun e r' h => by simp at h, ?_⟩
      simp only []
      omega
    | error e =>
      by_cases hlt : r < m
      · simp only [hlt, if_true]
        have h1 := ih (r + 1) (i + 1) (by omega) (by omega)
        exact ⟨h1.1, by have := h1.2; omega⟩
      · simp only [hlt, if_false]
        constructor
        · intro e' r' h
          simp only [TaskResult.failed.injEq] at h
          omega
        · omega

/-- Inductive invariant of the queue state machine: the active-task counter
counts exactly the running bodies, the ceiling is the constructor's 3, and
the counter stays below the ceiling. -/
theorem qreach_invariant (s : QState) (h : QReachable s) :
    s.running.length = s.activeTasks ∧ s.maxConcurrent = 3 ∧ s.activeTasks ≤ 3 := by
  induction h with
  | init => simp [initQState]
  | @step s s' hre hstep ih =>
    obtain ⟨ih1, ih2, ih3⟩ := ih
    cases hstep with
    | add m =>
      exact ⟨by simpa using ih1, by simpa using ih2, by simpa using ih3⟩
    | start t rest hq hc =>
      refine ⟨?_, by simpa using ih2, ?_⟩
      · simp only [List.length_cons]
        omega
      · simp only []
        omega
    | finishOk t l₁ l₂ hr =>
      have hlen : s.running.length = l₁.length + l₂.length + 1 := by
        rw [hr]; simp; omega
      refine ⟨?_, by simpa using ih2, by simp only []; omega⟩
      simp only [List.length_append]
      omega
    | finishRetry t l₁ l₂ hr hlt =>
      have hlen : s.running.length = l₁.length + l₂.length + 1 := by
        rw [hr]; simp; omega
      refine ⟨?_, by simpa using ih2, by simp only []; omega⟩
      simp only [List.length_append]
      omega
    | finishFail t l₁ l₂ hr hge =>
      have hlen : s.running.length = l₁.length + l₂.length + 1 := by
        rw [hr]; simp; omega
      refine ⟨?_, by simpa using ih2, by simp only []; omega⟩
      simp only [List.length_append]
      omega
    | timer t l₁ l₂ hd =>
      exact ⟨by simpa using ih1, by simpa using ih2, by simpa using ih3⟩

/-! ## Claim theorems -/

/-- C2 counterexample: a job submitted with no trailing task-options object
gets `retryDelay = 5000`, not the claimed 10,000 milliseconds. -/
theorem addTask_default_delay_counterexample :
    (addTaskParse []).2.2 = 5000 ∧ (addTaskParse []).2.2 ≠ 10000 := by
  decide

/-- C2 (amended): for every job submitted to the queue without an explicit
task-options object, the job's maximum retries defaults to 3 and its retry
delay defaults to 5,000 milliseconds. -/
theorem addTask_defaults (args : List JSArg) (h : hasTrailingOptions args = false) :
    addTaskParse args = (args, 3, 5000) := by
  unfold addTaskParse
  unfold hasTrailingOptions at h
  cases hl : args.getLast? with
  | none => simp [hl]
  | some a =>
    rw [hl] at h
    cases a with
    | prim s => simp [hl]
    | obj flag mr rd =>
      simp only [isTaskOptionsArg] at h
      subst h
      simp [hl]

/-- C2 witness: the amended default at the empty argument list. -/
theorem addTask_defaults_witness : addTaskParse [] = ([], 3, 5000) :=
  addTask_defaults [] rfl

/-- C9: a trailing object is consumed as the task-options object exactly when
its `_isTaskOptions` property is truthy — then the remaining arguments are
passed positionally and its `maxRetries`/`retryDelay` (with `|| 3` / `|| 5000`
defaulting) configure the task; any other trailing argument stays a
positional argument and the default retry settings apply. -/
theorem addTask_options_convention (args : List JSArg) (mr rd : Option Nat)
    (a : JSArg) (ha : isTaskOptionsArg a = false) :
    addTaskParse (args ++ [JSArg.obj true mr rd]) =
      (args, jsNumOr mr 3, jsNumOr rd 5000)
    ∧ addTaskParse (args ++ [a]) = (args ++ [a], 3, 5000) := by
  constructor
  · unfold addTaskParse
    rw [List.getLast?_concat]
    simp [List.dropLast_concat]
  · unfold addTaskParse
    rw [List.getLast?_concat]
    cases a with
    | prim s => simp
    | obj flag mr' rd' =>
      simp only [isTaskOptionsArg] at ha
      subst ha
      simp

/-- C9 witness: one non-options trailing object (flag false) and one options
object with a falsy `retryDelay` property. -/
theorem addTask_options_convention_witness :
    isTaskOptionsArg (JSArg.obj false (some 7) (some 8)) = false
    ∧ addTaskParse ([JSArg.prim "order"] ++ [JSArg.obj true (some 5) (some 0)]) =
        ([JSArg.prim "order"], 5, 5000)
    ∧ addTaskParse ([JSArg.prim "order"] ++ [JSArg.obj false (some 7) (some 8)]) =
        ([JSArg.prim "order"] ++ [JSArg.obj false (some 7) (some 8)], 3, 5000) :=
  ⟨by decide,
   (addTask_options_convention [JSArg.prim "order"] (some 5) (some 0)
      (JSArg.obj false (some 7) (some 8)) (by decide)).1,
   (addTask_options_convention [JSArg.prim "order"] (some 7) (some 8)
      (JSArg.obj false (some 7) (some 8)) (by decide)).2⟩

/-- C3: the pending result of a queued job never rejects: the body's thrown
errors are caught, and the settled value is either the body's returned value
or the terminal object `{failed: true, error, retries}` whose `retries`
equals the job's `maxRetries`. -/
theorem task_never_rejects {α : Type} (behavior : Nat → Except String α)
    (m : Nat) :
    (∃ v, (processTask behavior m).1 = TaskResult.ok v)
    ∨ (∃ e, (processTask behavior m).1 = TaskResult.failed e m) := by
  cases hres : (processTask behavior m).1 with
  | ok v => exact Or.inl ⟨v, rfl⟩
  | failed e r =>
    refine Or.inr ⟨e, ?_⟩
    have h := (processTaskFrom_bounds behavior m m 0 0 (by omega) (by omega)).1 e r hres
    rw [h]

/-- C4: from any retry counter `r ≤ maxRetries` (so in particular for a fresh
job, `r = 0`), the retry counter never exceeds `maxRetries` — any terminal
failure carries a retry count ≤ `maxRetries` — and the body is invoked at
most `maxRetries - r + 1` times before the result settles (`maxRetries + 1`
for a fresh job); the settled result is returned, so no invocation happens
afterward. -/
theorem task_retry_bounds {α : Type} (behavior : Nat → Except String α)
    (m r i : Nat) (hr : r ≤ m) :
    (∀ e r', (processTaskFrom behavior m r i).1 = TaskResult.failed e r' → r' ≤ m)
    ∧ (processTaskFrom behavior m r i).2 - i ≤ (m - r) + 1
    ∧ (processTask behavior m).2 ≤ m + 1 := by
  have h1 := processTaskFrom_bounds behavior m (m - r) r i (by omega) hr
  have h2 := processTaskFrom_bounds behavior m m 0 0 (by omega) (by omega)
  exact ⟨fun e r' hf => by rw [h1.1 e r' hf], by have := h1.2; omega,
    by have := h2.2; simpa [processTask] using this⟩

/-- C4 witness: a body that always throws, with `maxRetries = 2`, is invoked
exactly 3 times and settles with retry counter 2. -/
theorem task_retry_bounds_witness :
    (0 : Nat) ≤ 2
    ∧ ((∀ e r', (processTaskFrom (fun _ => (Except.error "boom" : Except String Nat)) 2 0 0).1 =
          TaskResult.failed e r' → r' ≤ 2)
       ∧ (processTaskFrom (fun _ => (Except.error "boom" : Except String Nat)) 2 0 0).2 - 0 ≤ (2 - 0) + 1
       ∧ (processTask (fun _ => (Except.error "boom" : Except String Nat)) 2).2 ≤ 2 + 1) :=
  ⟨by decide,
   task_retry_bounds (fun _ => (Except.error "boom" : Except String Nat)) 2 0 0 (by decide)⟩

/-- C5: in every reachable state of the queue, the active-task counter equals
the number of concurrently executing job bodies and never exceeds the
configured concurrency ceiling of 3. -/
theorem concurrency_ceiling (s : QState) (h : QReachable s) :
    s.activeTasks ≤ 3 ∧ s.running.length ≤ 3
    ∧ s.activeTasks ≤ s.maxConcurrent := by
  have hinv := qreach_invariant s h
  exact ⟨hinv.2.2, by omega, by omega⟩

/-- C5 witness: the ceiling holds at the freshly constructed queue. -/
theorem concurrency_ceiling_witness :
    initQState.activeTasks ≤ 3 ∧ initQState.running.length ≤ 3
    ∧ initQState.activeTasks ≤ initQState.maxConcurrent :=
  concurrency_ceiling initQState QReachable.init

/-- The entries a sequence of `logEmailAttempt` calls stores, in call order. -/
def entriesOf (inputs : List (String × String × EmailData)) : List LogEntry :=
  inputs.map (fun p => mkLogEntry p.1 p.2.1 p.2.2)

/-- One `logEmailAttempt` call prepends and truncates: starting below the
caps, the new memory list is the 100-truncation of the prepend, and (when the
logger is ready) the new file array is the 500-truncation of the prepend. -/
theorem logEmailAttempt_step (st : LoggerState) (id ts : String) (d : EmailData)
    (hi : st.inited = true) :
    (logEmailAttempt st id ts d).1.memoryLogs =
      (mkLogEntry id ts d :: st.memoryLogs).take 100
    ∧ (logEmailAttempt st id ts d).1.fileLogs =
      (mkLogEntry id ts d :: st.fileLogs).take 500
    ∧ (logEmailAttempt st id ts d).1.inited = true := by
  unfold logEmailAttempt
  simp only [hi, if_true]
  refine ⟨?_, ?_, by trivial⟩
  · by_cases h : (mkLogEntry id ts d :: st.memoryLogs).length > 100
    · simp [h]
    · simp only [h, if_false]
      rw [List.take_of_length_le (by omega)]
  · by_cases h : (mkLogEntry id ts d :: st.fileLogs).length > 500
    · simp [h]
    · simp only [h, if_false]
      rw [List.take_of_length_le (by omega)]

/-- Characterization of a whole run of the logger: both stores are the
truncated most-recent-first lists of all entries ever recorded. -/
theorem runLogger_char (inputs : List (String × String × EmailData)) :
    ∀ st, st.memoryLogs.length ≤ 100 → st.fileLogs.length ≤ 500 →
      st.inited = true →
      (runLogger st inputs).memoryLogs =
        ((entriesOf inputs).reverse ++ st.memoryLogs).take 100
      ∧ (runLogger st inputs).fileLogs =
        ((entriesOf inputs).reverse ++ st.fileLogs).take 500
      ∧ (runLogger st inputs).inited = true := by
  induction inputs with
  | nil =>
    intro st hm hf hi
    refine ⟨?_, ?_, hi⟩
    · simp [runLogger, entriesOf, List.take_of_length_le hm]
    · simp [runLogger, entriesOf, List.take_of_length_le hf]
  | cons p rest ih =>
    intro st hm hf hi
    have hstep := logEmailAttempt_step st p.1 p.2.1 p.2.2 hi
    have hrun : runLogger st (p :: rest) =
        runLogger (logEmailAttempt st p.1 p.2.1 p.2.2).1 rest := rfl
    have hm1 : (logEmailAttempt st p.1 p.2.1 p.2.2).1.memoryLogs.length ≤ 100 := by
      rw [hstep.1]
      simp [List.length_take]
    have hf1 : (logEmailAttempt st p.1 p.2.1 p.2.2).1.fileLogs.length ≤ 500 := by
      rw [hstep.2.1]
      simp [List.length_take]
    have hres := ih (logEmailAttempt st p.1 p.2.1 p.2.2).1 hm1 hf1 hstep.2.2
    rw [hrun]
    refine ⟨?_, ?_, hres.2.2⟩
    · rw [hres.1, hstep.1, take_append_take_of_le 100 100 _ _ (Nat.le_refl 100)]
      have : (entriesOf (p :: rest)).reverse =
          (entriesOf rest).reverse ++ [mkLogEntry p.1 p.2.1 p.2.2] := by
        simp [entriesOf]
      rw [this, List.append_assoc]
      rfl
    · rw [hres.2.1, hstep.2.1, take_append_take_of_le 500 500 _ _ (Nat.le_refl 500)]
      have : (entriesOf (p :: rest)).reverse =
          (entriesOf rest).reverse ++ [mkLogEntry p.1 p.2.1 p.2.2] := by
        simp [entriesOf]
      rw [this, List.append_assoc]
      rfl

/-- C6: for every sequence of `logEmailAttempt` calls starting from the
freshly initialized logger, the in-memory log is exactly the most-recent-first
list of all recorded entries truncated at 100 (so oldest entries beyond 100
are evicted and its length never exceeds 100), and the durable log is the
same list truncated at 500 (oldest evicted first, length never above 500). -/
theorem logger_caps (inputs : List (String × String × EmailData)) :
    (runLogger initLogger inputs).memoryLogs = (entriesOf inputs).reverse.take 100
    ∧ (runLogger initLogger inputs).memoryLogs.length ≤ 100
    ∧ (runLogger initLogger inputs).fileLogs = (entriesOf inputs).reverse.take 500
    ∧ (runLogger initLogger inputs).fileLogs.length ≤ 500 := by
  have h := runLogger_char inputs initLogger (by simp [initLogger])
    (by simp [initLogger]) rfl
  have hm : (runLogger initLogger inputs).memoryLogs =
      (entriesOf inputs).reverse.take 100 := by
    have := h.1
    simpa [initLogger] using this
  have hf : (runLogger initLogger inputs).fileLogs =
      (entriesOf inputs).reverse.take 500 := by
    have := h.2.1
    simpa [initLogger] using this
  exact ⟨hm, by rw [hm]; simp [List.length_take], hf, by rw [hf]; simp [List.length_take]⟩

/-- C8: `getStats` does not mutate the logger (the state comes back
unchanged), is computed from the in-memory list only (two states with the
same `memoryLogs` give the same stats, whatever their durable logs), hence
calling it twice with no intervening `logEmailAttempt` returns identical
values, and the returned object carries exactly the
`{total, success, failed, successRate, lastAttempt}` aggregation of the
in-memory list. -/
theorem getStats_idempotent (st st' : LoggerState)
    (h : st.memoryLogs = st'.memoryLogs) :
    (getStats st).1 = st
    ∧ (getStats ((getStats st).1)).2 = (getStats st).2
    ∧ (getStats st).2 = (getStats st').2
    ∧ (getStats st).2.total = st.memoryLogs.length
    ∧ (getStats st).2.success =
        (st.memoryLogs.filter (fun l => l.status = "success")).length
    ∧ (getStats st).2.failed = (getStats st).2.total - (getStats st).2.success
    ∧ (getStats st).2.successRate =
        (if (getStats st).2.total = 0 then 0
         else ((getStats st).2.success * 100 : ℚ) / (getStats st).2.total)
    ∧ (getStats st).2.lastAttempt = st.memoryLogs.head?.map (fun l => l.timestamp) := by
  refine ⟨rfl, rfl, ?_, rfl, rfl, rfl, rfl, rfl⟩
  simp [getStats, h]

/-- C8 witness: two logger states sharing the in-memory list but differing in
the durable log give identical stats. -/
theorem getStats_idempotent_witness :
    ({ memoryLogs := [], fileLogs := [], inited := true } : LoggerState).memoryLogs =
      ({ memoryLogs := [], fileLogs :=
           [mkLogEntry "email_1" "t1"
             { type := "customer_confirmation", orderId := "ORD-1", retryCount := 0,
               toAddr := "a@b.c", subject := "s", success := true }],
         inited := false } : LoggerState).memoryLogs
    ∧ (getStats { memoryLogs := [], fileLogs := [], inited := true }).1 =
        { memoryLogs := [], fileLogs := [], inited := true } :=
  ⟨rfl,
   (getStats_idempotent { memoryLogs := [], fileLogs := [], inited := true }
     { memoryLogs := [], fileLogs :=
         [mkLogEntry "email_1" "t1"
           { type := "customer_confirmation", orderId := "ORD-1", retryCount := 0,
             toAddr := "a@b.c", subject := "s", success := true }],
       inited := false } rfl).1⟩

/-- C1 counterexample: for a message whose primary send throws and whose
fallback send succeeds (no-op tier inactive), the orchestration logs exactly
ONE attempt entry — the fallback success — not the claimed two: the failed
primary attempt is never given to the Attempt Logger. -/
theorem per_tier_logging_counterexample :
    ((sendCustomerOrderConfirmationBody
        { primary := SendOutcome.err "ETIMEDOUT",
          fallback := SendOutcome.ok "fb-mid-1",
          noop := { active := false }, noopMid := "n-1" }
        { fallbackUsed := 0, fallbackSuccess := 0 }
        "ORD-1" "a@b.c").1).logs.length = 1
    ∧ ((sendCustomerOrderConfirmationBody
        { primary := SendOutcome.err "ETIMEDOUT",
          fallback := SendOutcome.ok "fb-mid-1",
          noop := { active := false }, noopMid := "n-1" }
        { fallbackUsed := 0, fallbackSuccess := 0 }
        "ORD-1" "a@b.c").1).logs.length ≠ 2 := by
  constructor
  · rfl
  · decide

/-- C1 (amended): in every orchestration pass, a successful primary attempt
logs exactly one success entry, a FAILED primary attempt logs no entry of its
own, every fallback attempt logs exactly one entry (success or failure), and
every simulated attempt logs exactly one success entry; a pass in which both
real tiers fail with the simulated tier inactive logs one additional
orchestration-level terminal-failure entry.  So when the primary send fails
and the fallback send succeeds, exactly one entry is logged — a success entry
for the fallback attempt.  The four clauses cover every pass exhaustively. -/
theorem per_tier_logging (env : OrchEnv) (fst : FallbackState)
    (orderId email : String) :
    (∀ mid, env.primary = SendOutcome.ok mid →
      ((sendCustomerOrderConfirmationBody env fst orderId email).1).logs =
        [{ type := "customer_confirmation", orderId := orderId, retryCount := 0,
           toAddr := email, subject := "Order Confirmation - " ++ orderId,
           success := true, messageId := some mid }])
    ∧ (∀ e mid, env.primary = SendOutcome.err e → env.fallback = SendOutcome.ok mid →
      ((sendCustomerOrderConfirmationBody env fst orderId email).1).logs =
        [{ type := "customer_confirmation", orderId := orderId, retryCount := 1,
           toAddr := email, subject := "Order Confirmation - " ++ orderId,
           success := true, messageId := some mid, usingFallback := true }])
    ∧ (∀ e e', env.primary = SendOutcome.err e → env.fallback = SendOutcome.err e' →
        env.noop.active = true →
      ((sendCustomerOrderConfirmationBody env fst orderId email).1).logs =
        [{ type := "customer_confirmation", orderId := orderId, retryCount := 1,
           toAddr := email, subject := "Order Confirmation - " ++ orderId,
           success := false, error := some e', usingFallback := true },
         { type := "customer_confirmation", orderId := orderId, retryCount := 2,
           toAddr := email, subject := "Order Confirmation - " ++ orderId,
           success := true, messageId := some env.noopMid, simulated := true }])
    ∧ (∀ e e', env.primary = SendOutcome.err e → env.fallback = SendOutcome.err e' →
        env.noop.active = false →
      ((sendCustomerOrderConfirmationBody env fst orderId email).1).logs =
        [{ type := "customer_confirmation", orderId := orderId, retryCount := 1,
           toAddr := email, subject := "Order Confirmation - " ++ orderId,
           success := false, error := some e', usingFallback := true },
         { type := "customer_confirmation", orderId := orderId, retryCount := 0,
           toAddr := email, subject := "Order Confirmation - " ++ orderId,
           success := false, error := some bothFailedMsg }]) := by
  refine ⟨?_, ?_, ?_, ?_⟩
  · intro mid hp
    simp [sendCustomerOrderConfirmationBody, hp]
  · intro e mid hp hf
    simp [sendCustomerOrderConfirmationBody, hp, hf, fallbackSendMail]
  · intro e e' hp hf ha
    simp [sendCustomerOrderConfirmationBody, hp, hf, ha, fallbackSendMail, noopSendMail]
  · intro e e' hp hf ha
    simp [sendCustomerOrderConfirmationBody, hp, hf, ha, fallbackSendMail]

/-- C1 witness: the amended clauses at concrete environments, covering the
primary-success pass, the fallback-rescue pass, and both double-failure
passes (simulated tier active and inactive). -/
theorem per_tier_logging_witness :
    ((sendCustomerOrderConfirmationBody
        { primary := SendOutcome.ok "p-mid-1", fallback := SendOutcome.ok "fb-mid-1",
          noop := { active := false }, noopMid := "n-1" }
        { fallbackUsed := 0, fallbackSuccess := 0 } "ORD-1" "a@b.c").1).logs =
      [{ type := "customer_confirmation", orderId := "ORD-1", retryCount := 0,
         toAddr := "a@b.c", subject := "Order Confirmation - " ++ "ORD-1",
         success := true, messageId := some "p-mid-1" }]
    ∧ ((sendCustomerOrderConfirmationBody
        { primary := SendOutcome.err "ECONN", fallback := SendOutcome.ok "fb-mid-2",
          noop := { active := false }, noopMid := "n-1" }
        { fallbackUsed := 0, fallbackSuccess := 0 } "ORD-2" "c@d.e").1).logs =
      [{ type := "customer_confirmation", orderId := "ORD-2", retryCount := 1,
         toAddr := "c@d.e", subject := "Order Confirmation - " ++ "ORD-2",
         success := true, messageId := some "fb-mid-2", usingFallback := true }]
    ∧ ((sendCustomerOrderConfirmationBody
        { primary := SendOutcome.err "ECONN", fallback := SendOutcome.err "EAUTH",
          noop := { active := true }, noopMid := "n-3" }
        { fallbackUsed := 0, fallbackSuccess := 0 } "ORD-3" "e@f.g").1).logs =
      [{ type := "customer_confirmation", orderId := "ORD-3", retryCount := 1,
         toAddr := "e@f.g", subject := "Order Confirmation - " ++ "ORD-3",
         success := false, error := some "EAUTH", usingFallback := true },
       { type := "customer_confirmation", orderId := "ORD-3", retryCount := 2,
         toAddr := "e@f.g", subject := "Order Confirmation - " ++ "ORD-3",
         success := true, messageId := some "n-3", simulated := true }]
    ∧ ((sendCustomerOrderConfirmationBody
        { primary := SendOutcome.err "ECONN", fallback := SendOutcome.err "EAUTH",
          noop := { active := false }, noopMid := "n-4" }
        { fallbackUsed := 0, fallbackSuccess := 0 } "ORD-4" "h@i.j").1).logs =
      [{ type := "customer_confirmation", orderId := "ORD-4", retryCount := 1,
         toAddr := "h@i.j", subject := "Order Confirmation - " ++ "ORD-4",
         success := false, error := some "EAUTH", usingFallback := true },
       { type := "customer_confirmation", orderId := "ORD-4", retryCount := 0,
         toAddr := "h@i.j", subject := "Order Confirmation - " ++ "ORD-4",
         success := false, error := some bothFailedMsg }] :=
  ⟨(per_tier_logging
      { primary := SendOutcome.ok "p-mid-1", fallback := SendOutcome.ok "fb-mid-1",
        noop := { active := false }, noopMid := "n-1" }
      { fallbackUsed := 0, fallbackSuccess := 0 } "ORD-1" "a@b.c").1 "p-mid-1" rfl,
   (per_tier_logging
      { primary := SendOutcome.err "ECONN", fallback := SendOutcome.ok "fb-mid-2",
        noop := { active := false }, noopMid := "n-1" }
      { fallbackUsed := 0, fallbackSuccess := 0 } "ORD-2" "c@d.e").2.1 "ECONN" "fb-mid-2"
      rfl rfl,
   (per_tier_logging
      { primary := SendOutcome.err "ECONN", fallback := SendOutcome.err "EAUTH",
        noop := { active := true }, noopMid := "n-3" }
      { fallbackUsed := 0, fallbackSuccess := 0 } "ORD-3" "e@f.g").2.2.1 "ECONN" "EAUTH"
      rfl rfl rfl,
   (per_tier_logging
      { primary := SendOutcome.err "ECONN", fallback := SendOutcome.err "EAUTH",
        noop := { active := false }, noopMid := "n-4" }
      { fallbackUsed := 0, fallbackSuccess := 0 } "ORD-4" "h@i.j").2.2.2 "ECONN" "EAUTH"
      rfl rfl rfl⟩

/-- C7: when the no-op tier has not been activated, an orchestration pass
never invokes its simulated send, never logs a simulated entry, and a pass
in which both real tiers fail resolves with `{success: false, error}`. -/
theorem simulated_tier_gated (env : OrchEnv) (fst : FallbackState)
    (orderId email : String) (h : env.noop.active = false) :
    ((sendCustomerOrderConfirmationBody env fst orderId email).1).noopAttempted = false
    ∧ (∀ d, d ∈ ((sendCustomerOrderConfirmationBody env fst orderId email).1).logs →
        d.simulated = false)
    ∧ (∀ e e', env.primary = SendOutcome.err e → env.fallback = SendOutcome.err e' →
        ((sendCustomerOrderConfirmationBody env fst orderId email).1).result =
          { success := false, error := some bothFailedMsg }) := by
  cases hp : env.primary with
  | ok mid =>
    refine ⟨by simp [sendCustomerOrderConfirmationBody, hp], ?_, ?_⟩
    · intro d hd
      simp [sendCustomerOrderConfirmationBody, hp] at hd
      simp [hd]
    · intro e e' he _
      exact absurd he (by simp)
  | err e0 =>
    cases hf : env.fallback with
    | ok mid =>
      refine ⟨by simp [sendCustomerOrderConfirmationBody, hp, hf, fallbackSendMail], ?_, ?_⟩
      · intro d hd
        simp [sendCustomerOrderConfirmationBody, hp, hf, fallbackSendMail] at hd
        simp [hd]
      · intro e e' _ hf'
        exact absurd hf' (by simp)
    | err e1 =>
      refine ⟨by simp [sendCustomerOrderConfirmationBody, hp, hf, fallbackSendMail, h], ?_, ?_⟩
      · intro d hd
        simp [sendCustomerOrderConfirmationBody, hp, hf, fallbackSendMail, h] at hd
        rcases hd with hd | hd <;> simp [hd]
      · intro e e' _ _
        simp [sendCustomerOrderConfirmationBody, hp, hf, fallbackSendMail, h]

/-- C7 witness: with the no-op tier inactive and both real tiers failing,
the pass resolves `{success: false, error}` with no simulated attempt. -/
theorem simulated_tier_gated_witness :
    ((sendCustomerOrderConfirmationBody
        { primary := SendOutcome.err "ETIMEDOUT", fallback := SendOutcome.err "EAUTH",
          noop := { active := false }, noopMid := "n-1" }
        { fallbackUsed := 0, fallbackSuccess := 0 } "ORD-1" "a@b.c").1).noopAttempted = false
    ∧ (∀ d, d ∈ ((sendCustomerOrderConfirmationBody
        { primary := SendOutcome.err "ETIMEDOUT", fallback := SendOutcome.err "EAUTH",
          noop := { active := false }, noopMid := "n-1" }
        { fallbackUsed := 0, fallbackSuccess := 0 } "ORD-1" "a@b.c").1).logs →
        d.simulated = false)
    ∧ (∀ e e',
        ({ primary := SendOutcome.err "ETIMEDOUT", fallback := SendOutcome.err "EAUTH",
           noop := { active := false }, noopMid := "n-1" } : OrchEnv).primary =
            SendOutcome.err e →
        ({ primary := SendOutcome.err "ETIMEDOUT", fallback := SendOutcome.err "EAUTH",
           noop := { active := false }, noopMid := "n-1" } : OrchEnv).fallback =
            SendOutcome.err e' →
        ((sendCustomerOrderConfirmationBody
            { primary := SendOutcome.err "ETIMEDOUT", fallback := SendOutcome.err "EAUTH",
              noop := { active := false }, noopMid := "n-1" }
            { fallbackUsed := 0, fallbackSuccess := 0 } "ORD-1" "a@b.c").1).result =
          { success := false, error := some bothFailedMsg }) :=
  simulated_tier_gated
    { primary := SendOutcome.err "ETIMEDOUT", fallback := SendOutcome.err "EAUTH",
      noop := { active := false }, noopMid := "n-1" }
    { fallbackUsed := 0, fallbackSuccess := 0 } "ORD-1" "a@b.c" rfl

/-- C10: the simulated tier's `sendMail`, whatever the `active` flag, leaves
its state untouched, resolves `{success: true, simulated: true}` with the
freshly generated message id, records exactly one success attempt entry, and
its result does not depend on the activation flag — it never fails. -/
theorem noop_sendMail_always_succeeds (st : NoopState) (mail : MailOptions)
    (meta : Metadata) (mid : String) :
    (noopSendMail st mail meta mid).1 = st
    ∧ (noopSendMail st mail meta mid).2.1 =
        { success := true, messageId := some mid, simulated := true }
    ∧ (noopSendMail st mail meta mid).2.2 =
        [{ type := meta.type, orderId := meta.orderId, retryCount := meta.retryCount,
           toAddr := mail.toAddr, subject := mail.subject, success := true,
           messageId := some mid, simulated := true }]
    ∧ (noopSendMail { active := true } mail meta mid).2 =
        (noopSendMail { active := false } mail meta mid).2 :=
  ⟨rfl, rfl, rfl, rfl⟩

end Palangtod
